import Mathlib

/-!
Verification development for the ansibleplay Terraform provider's `run`
resource.  The repository contains three variants of the resource:

* the random-id variant (`RunResourceModel` with `id`, temp-file inventory),
* the stdin-inventory variant (`last_execution` marker, inventory streamed
  over `/dev/stdin`),
* the temp-file variant with a `last_execution` marker.

The Go code is shallowly embedded below: Terraform framework values
(`types.String`, `types.Int32`, `types.Int64`) as small inductives, the
`encoding/json` decode into `map[string]interface{}` as an executable JSON
parser, Go maps as association lists with insert-or-replace, and the
external process / temporary file system as an explicit environment of
`Except`-valued outcomes.
-/

namespace AnsiblePlay

/-- Model of the Terraform framework `types.String` / `basetypes.StringValue`:
a string attribute is null, unknown, or a known string. -/
inductive TFString where
  | null
  | unknown
  | value (s : String)
deriving DecidableEq

/-- Go `StringValue.ValueString()`: the known string, or `""` for null and
unknown values. -/
def TFString.valueString : TFString → String
  | .value s => s
  | _ => ""

/-- Go `StringValue.IsNull()`. -/
def TFString.isNull : TFString → Bool
  | .null => true
  | _ => false

/-- Go `StringValue.IsUnknown()`. -/
def TFString.isUnknown : TFString → Bool
  | .unknown => true
  | _ => false

/-- One character of Go `fmt.Sprintf("%q", s)` quoting, modelled for the
printable characters used by host specs: a double quote and a backslash are
escaped with a backslash, other characters stand for themselves (Go
additionally escapes control and non-ASCII characters, which never occur in
the inputs considered here). -/
def goQuoteChar (c : Char) : List Char :=
  if c = '"' then ['\\', '"']
  else if c = '\\' then ['\\', '\\']
  else [c]

/-- Model of Go `fmt.Sprintf("%q", s)`: the string wrapped in double quotes
with quote and backslash characters escaped. -/
def goQuote (s : String) : String :=
  String.mk ('"' :: s.data.foldr (fun c acc => goQuoteChar c ++ acc) ['"'])

/-- Go `basetypes.StringValue.String()`: `attr.NullValueString` /
`attr.UnknownValueString` markers, or the `%q`-quoted known value. -/
def TFString.goString : TFString → String
  | .null => "<null>"
  | .unknown => "<unknown>"
  | .value s => goQuote s

/-- Model of the Terraform framework `types.Int32` value. Int32 overflow is
irrelevant here: the field is only compared with zero and used as a
repetition count. -/
inductive TFInt32 where
  | null
  | unknown
  | value (n : Int)
deriving DecidableEq

/-- Go `Int32Value.ValueInt32()`: the known integer, or `0` for null and
unknown. -/
def TFInt32.valueInt32 : TFInt32 → Int
  | .value n => n
  | _ => 0

/-- Model of the Terraform framework `types.Int64` value (the random id). -/
inductive TFInt64 where
  | null
  | unknown
  | value (n : Int)
deriving DecidableEq

/-- JSON values as decoded by Go `encoding/json` into `interface{}`.
Numbers are kept as their source lexeme (Go decodes them to `float64`;
no claim below compares numbers, so the lexeme is sufficient). -/
inductive Json where
  | null
  | bool (b : Bool)
  | num (lexeme : String)
  | str (s : String)
  | arr (elems : List Json)
  | obj (fields : List (String × Json))

/-- Go maps keyed by strings, as association lists with unique keys kept in
first-insertion order; `goUpsert` is Go map assignment (replace in place or
append). -/
abbrev GoMap (α : Type) : Type := List (String × α)

/-- Go map assignment `m[k] = v`: replace the binding in place if the key is
present, otherwise append it. -/
def goUpsert {α : Type} : GoMap α → String → α → GoMap α
  | [], k, v => [(k, v)]
  | (k₀, v₀) :: rest, k, v =>
    if k₀ = k then (k, v) :: rest else (k₀, v₀) :: goUpsert rest k v

/-- Go map read `m[k]`. -/
def goLookup {α : Type} : GoMap α → String → Option α
  | [], _ => none
  | (k₀, v₀) :: rest, k => if k₀ = k then some v₀ else goLookup rest k

/-- JSON insignificant whitespace accepted by `encoding/json`. -/
def isJsonWs (c : Char) : Bool :=
  c = ' ' || c = '\t' || c = '\n' || c = '\r'

/-- Drop leading JSON whitespace. -/
def skipWs : List Char → List Char
  | [] => []
  | c :: cs => if isJsonWs c then skipWs cs else c :: cs

/-- Value of one hexadecimal digit, for `\uXXXX` escapes. -/
def hexVal (c : Char) : Option Nat :=
  if '0' ≤ c ∧ c ≤ '9' then some (c.toNat - 48)
  else if 'a' ≤ c ∧ c ≤ 'f' then some (c.toNat - 87)
  else if 'A' ≤ c ∧ c ≤ 'F' then some (c.toNat - 55)
  else none

/-- JSON string body parser (the opening quote already consumed), returning
the decoded string and the rest of the input.  Escapes are decoded as in
`encoding/json`; unescaped control characters are rejected.  A `\uXXXX`
escape is decoded through `Char.ofNat` — surrogate code units therefore
map to NUL instead of Go's UTF-16 pair combination / U+FFFD replacement, a
value-level divergence on inputs no claim exercises; the success/failure
classification agrees with Go.  The fuel is an upper bound on the
characters consumed; each step consumes at least one character, so
`length + 1` fuel is always sufficient. -/
def parseJStringAux : Nat → List Char → List Char → Option (String × List Char)
  | 0, _, _ => none
  | _, _, [] => none
  | f + 1, acc, c :: cs =>
    if c = '"' then some (String.mk acc.reverse, cs)
    else if c = '\\' then
      match cs with
      | [] => none
      | e :: cs₂ =>
        if e = '"' then parseJStringAux f ('"' :: acc) cs₂
        else if e = '\\' then parseJStringAux f ('\\' :: acc) cs₂
        else if e = '/' then parseJStringAux f ('/' :: acc) cs₂
        else if e = 'n' then parseJStringAux f ('\n' :: acc) cs₂
        else if e = 't' then parseJStringAux f ('\t' :: acc) cs₂
        else if e = 'r' then parseJStringAux f ('\r' :: acc) cs₂
        else if e = 'b' then parseJStringAux f (Char.ofNat 8 :: acc) cs₂
        else if e = 'f' then parseJStringAux f (Char.ofNat 12 :: acc) cs₂
        else if e = 'u' then
          match cs₂ with
          | h₁ :: h₂ :: h₃ :: h₄ :: cs₃ =>
            match hexVal h₁, hexVal h₂, hexVal h₃, hexVal h₄ with
            | some a, some b, some c₂, some d =>
              parseJStringAux f (Char.ofNat (a * 4096 + b * 256 + c₂ * 16 + d) :: acc) cs₃
            | _, _, _, _ => none
          | _ => none
        else none
    else if c.toNat < 32 then none
    else parseJStringAux f (c :: acc) cs

/-- Take a maximal run of decimal digits. -/
def takeDigits : List Char → List Char × List Char
  | [] => ([], [])
  | c :: cs =>
    if c.isDigit then
      let p := takeDigits cs
      (c :: p.1, p.2)
    else ([], c :: cs)

/-- Optional fraction part of a JSON number. -/
def parseJFrac : List Char → Option (List Char × List Char)
  | c :: cs =>
    if c = '.' then
      let p := takeDigits cs
      if p.1.isEmpty then none else some ('.' :: p.1, p.2)
    else some ([], c :: cs)
  | [] => some ([], [])

/-- Optional exponent part of a JSON number. -/
def parseJExp : List Char → Option (List Char × List Char)
  | c :: cs =>
    if c = 'e' ∨ c = 'E' then
      match cs with
      | s :: cs₂ =>
        if s = '+' ∨ s = '-' then
          let p := takeDigits cs₂
          if p.1.isEmpty then none else some (c :: s :: p.1, p.2)
        else
          let p := takeDigits cs
          if p.1.isEmpty then none else some (c :: p.1, p.2)
      | [] => none
    else some ([], c :: cs)
  | [] => some ([], [])

/-- JSON number parser, returning the lexeme (kept verbatim, see `Json.num`)
and the rest of the input.  Follows the JSON grammar used by
`encoding/json`: optional minus, `0` or a nonzero-led digit run, optional
fraction, optional exponent. -/
def parseJNumber (cs : List Char) : Option (Json × List Char) :=
  let sp : List Char × List Char :=
    match cs with
    | c :: r => if c = '-' then (['-'], r) else ([], cs)
    | [] => ([], [])
  match sp.2 with
  | [] => none
  | c :: r =>
    if ¬ c.isDigit then none
    else
      let ip : List Char × List Char :=
        if c = '0' then ([c], r)
        else
          let p := takeDigits r
          (c :: p.1, p.2)
      match parseJFrac ip.2 with
      | none => none
      | some fr =>
        match parseJExp fr.2 with
        | none => none
        | some ex =>
          some (Json.num (String.mk (sp.1 ++ ip.1 ++ fr.1 ++ ex.1)), ex.2)

/-- The `\x7b` character (written via its code point to keep it out of
string literals). -/
def lbrace : Char := Char.ofNat 123

/-- The `\x7d` character. -/
def rbrace : Char := Char.ofNat 125

mutual

/-- JSON value parser modelling `encoding/json` decoding into `interface{}`.
The fuel bounds the recursion depth; every recursive call is made on a
strictly shorter remaining input, so fuel `length + 1` is always enough. -/
def parseJValue : Nat → List Char → Option (Json × List Char)
  | 0, _ => none
  | f + 1, cs =>
    match skipWs cs with
    | [] => none
    | c :: cs₁ =>
      if c = lbrace then
        match skipWs cs₁ with
        | c₂ :: r => if c₂ = rbrace then some (Json.obj [], r) else parseJObjLoop f cs₁
        | [] => none
      else if c = '[' then
        match skipWs cs₁ with
        | c₂ :: r => if c₂ = ']' then some (Json.arr [], r) else parseJArrLoop f cs₁
        | [] => none
      else if c = '"' then
        match parseJStringAux (cs₁.length + 1) [] cs₁ with
        | some (s, r) => some (Json.str s, r)
        | none => none
      else if c = 't' then
        match cs₁ with
        | 'r' :: 'u' :: 'e' :: r => some (Json.bool true, r)
        | _ => none
      else if c = 'f' then
        match cs₁ with
        | 'a' :: 'l' :: 's' :: 'e' :: r => some (Json.bool false, r)
        | _ => none
      else if c = 'n' then
        match cs₁ with
        | 'u' :: 'l' :: 'l' :: r => some (Json.null, r)
        | _ => none
      else if c = '-' ∨ c.isDigit then parseJNumber (c :: cs₁)
      else none

/-- Comma-separated JSON array members, terminated by a closing bracket. -/
def parseJArrLoop : Nat → List Char → Option (Json × List Char)
  | 0, _ => none
  | f + 1, cs =>
    match parseJValue f cs with
    | none => none
    | some (v, rest) =>
      match skipWs rest with
      | c :: rest₂ =>
        if c = ',' then
          match parseJArrLoop f rest₂ with
          | some (Json.arr vs, r) => some (Json.arr (v :: vs), r)
          | _ => none
        else if c = ']' then some (Json.arr [v], rest₂)
        else none
      | [] => none

/-- Comma-separated JSON object members, terminated by a closing brace. -/
def parseJObjLoop : Nat → List Char → Option (Json × List Char)
  | 0, _ => none
  | f + 1, cs =>
    match skipWs cs with
    | c :: cs₁ =>
      if c = '"' then
        match parseJStringAux (cs₁.length + 1) [] cs₁ with
        | none => none
        | some (k, rest) =>
          match skipWs rest with
          | c₂ :: rest₂ =>
            if c₂ = ':' then
              match parseJValue f rest₂ with
              | none => none
              | some (v, rest₃) =>
                match skipWs rest₃ with
                | c₃ :: rest₄ =>
                  if c₃ = ',' then
                    match parseJObjLoop f rest₄ with
                    | some (Json.obj ps, r) => some (Json.obj ((k, v) :: ps), r)
                    | _ => none
                  else if c₃ = rbrace then some (Json.obj [(k, v)], rest₄)
                  else none
                | [] => none
            else none
          | [] => none
      else none
    | [] => none

end

/-- Model of Go `json.Unmarshal(data, &m)` for `m : map[string]interface{}`:
succeeds when the input is a single JSON object (with optional surrounding
whitespace), yielding the decoded fields with Go-map last-wins semantics
for duplicate keys — and also when the input is the JSON literal `null`,
which `encoding/json` accepts as a no-op when decoding into a map.  At
both call sites of this repository the destination map is empty before the
call (`attr := map[string]interface{}{}` resp. a discarded validation
value), so the no-op is modelled as the empty map.  Any other input is an
error. -/
def jsonUnmarshalObj (s : String) : Option (GoMap Json) :=
  match parseJValue (s.length + 1) s.data with
  | some (Json.obj fields, rest) =>
    if skipWs rest = [] then
      some (fields.foldl (fun m p => goUpsert m p.1 p.2) [])
    else none
  | some (Json.null, rest) =>
    if skipWs rest = [] then some [] else none
  | _ => none

/-- Split a character list at the first space: `none` when no space occurs,
otherwise the segments before and after that space. -/
def splitOnFirstSpace : List Char → Option (List Char × List Char)
  | [] => none
  | c :: cs =>
    if c = ' ' then some ([], cs)
    else
      match splitOnFirstSpace cs with
      | none => none
      | some p => some (c :: p.1, p.2)

/-- Model of Go `strings.SplitN(s, " ", 2)`: the part before the first
space, and the remainder after it (`none` when the string has no space, in
which case the single returned segment is the whole string). -/
def splitN2 (s : String) : String × Option String :=
  match splitOnFirstSpace s.data with
  | none => (s, none)
  | some p => (String.mk p.1, some (String.mk p.2))

/-- Error message produced for a host spec whose attribute segment does not
decode; the source appends the underlying `encoding/json` error text, which
is not modelled. -/
def hostAttrErr (addr : String) : String :=
  "unable to parse host attributes for \x27" ++ addr ++ "\x27"

/-- Host-spec parsing as performed inside `(*RunResource).execute`: split on
the first space; no space yields the whole string with empty attributes; a
space requires the remainder to decode as a JSON object. -/
def parseHostSpec (s : String) : Except String (String × GoMap Json) :=
  match splitN2 s with
  | (addr, none) => .ok (addr, [])
  | (addr, some rest) =>
    match jsonUnmarshalObj rest with
    | some attr => .ok (addr, attr)
    | none => .error (hostAttrErr addr)

/-- Hosts-map construction loop of the temp-file variants: each element's
`ValueString()` is parsed and the decoded attributes are stored under the
parsed address (`hosts[hostAndJsonAttr[0]] = attr`). -/
def buildHostsMapAux : GoMap Json → List TFString → Except String (GoMap Json)
  | acc, [] => .ok acc
  | acc, h :: t =>
    match parseHostSpec h.valueString with
    | .error e => .error e
    | .ok p => buildHostsMapAux (goUpsert acc p.1 (Json.obj p.2)) t

/-- Hosts map of the temp-file variants, keyed by parsed address. -/
def buildHostsMap (hosts : List TFString) : Except String (GoMap Json) :=
  buildHostsMapAux [] hosts

/-- Hosts-map construction loop of the stdin variant: the attributes are
parsed from `ValueString()` exactly as in the other variants, but the map
key is `value.String()` — the framework's quoted rendering of the whole
host-spec element (`hosts[value.String()] = attr`). -/
def buildHostsMapStdinAux : GoMap Json → List TFString → Except String (GoMap Json)
  | acc, [] => .ok acc
  | acc, h :: t =>
    match parseHostSpec h.valueString with
    | .error e => .error e
    | .ok p => buildHostsMapStdinAux (goUpsert acc h.goString (Json.obj p.2)) t

/-- Hosts map of the stdin variant, keyed by the quoted full host spec. -/
def buildHostsMapStdin (hosts : List TFString) : Except String (GoMap Json) :=
  buildHostsMapStdinAux [] hosts

/-- The parsed `(address, decoded attributes)` pairs of a host list in input
order, without the Go-map deduplication. -/
def parsedPairs : List TFString → Except String (List (String × Json))
  | [] => .ok []
  | h :: t =>
    match parseHostSpec h.valueString with
    | .error e => .error e
    | .ok p =>
      match parsedPairs t with
      | .error e => .error e
      | .ok ps => .ok ((p.1, Json.obj p.2) :: ps)

/-- Value stored at the last occurrence of address `a` in a pair list. -/
def lastAttr : List (String × Json) → String → Option Json
  | [], _ => none
  | p :: t, a =>
    match lastAttr t a with
    | some v => some v
    | none => if p.1 = a then some p.2 else none

/-- The structured inventory document handed to the external binary: a
single top-level `all` grouping holding a `hosts` mapping. -/
def inventoryDoc (hosts : GoMap Json) : Json :=
  Json.obj [("all", Json.obj [("hosts", Json.obj hosts)])]

/-- Provider data model (`ansible_playbook_binary`, `verbosity`). -/
structure AnsiblePlayProviderModel where
  ansiblePlaybookBinary : TFString
  verbosity : TFInt32

/-- Zero value of `AnsiblePlayProviderModel`, as produced by a failed Go
type assertion with two return values: both fields null framework values. -/
def zeroProviderModel : AnsiblePlayProviderModel :=
  { ansiblePlaybookBinary := TFString.null, verbosity := TFInt32.null }

/-- Resource model of the random-id variant (`id`, `hosts`,
`playbook_file`, `extra_vars_json`).  `hosts` is modelled as the element
list of the framework list value. -/
structure RunResourceModel0 where
  id : TFInt64
  hosts : List TFString
  playbookFile : TFString
  extraVars : TFString

/-- Resource model of the two `last_execution` variants (`hosts`,
`playbook_file`, `last_execution`). -/
structure RunResourceModel1 where
  hosts : List TFString
  playbookFile : TFString
  lastExecution : TFString

/-- A prepared external-process invocation: resolved binary, argument list,
and the inventory document streamed on standard input when the stdin
convention is used. -/
structure Invocation where
  binary : String
  args : List String
  stdinDoc : Option Json

/-- Environmental outcomes an `execute` call depends on: temp-file
creation (`os.CreateTemp`, yielding the file name), the YAML
encode-to-file and close steps, and the external process run (`c.Run()`,
error text standing for the wrapped error plus captured stderr). -/
structure ExecEnv where
  createTemp : Except String String
  writeInv : Except String Unit
  closeInv : Except String Unit
  run : Invocation → Except String String

/-- Observable outcome of one `execute` call: the inventory document that
was completely produced (if any), the process invocation that was issued
(if reached), and the returned error or success. -/
structure ExecTrace where
  inventory : Option Json
  invocation : Option Invocation
  result : Except String Unit

/-- Binary fallback used by every variant: an empty configured path
resolves to `"ansible-playbook"`. -/
def resolveBinary (b : String) : String :=
  if b = "" then "ansible-playbook" else b

/-- Model of Go `strings.Repeat("v", n)`. -/
def goRepeatV (n : Nat) : String :=
  String.mk (List.replicate n 'v')

/-- Argument list of the random-id variant: playbook path, `-i` with the
temp-file name, `--extra-vars` when the attribute is non-null, then the
verbosity flag when the configured verbosity is positive. -/
def argsTempFile0 (pm : AnsiblePlayProviderModel) (data : RunResourceModel0)
    (tfName : String) : List String :=
  let a₁ := [data.playbookFile.valueString, "-i", tfName]
  let a₂ := if data.extraVars.isNull then a₁ else a₁ ++ ["--extra-vars", data.extraVars.valueString]
  if 0 < pm.verbosity.valueInt32 then a₂ ++ ["-" ++ goRepeatV pm.verbosity.valueInt32.toNat] else a₂

/-- Argument list of the `last_execution` temp-file variant: playbook path,
`-i` with the temp-file name, verbosity flag when positive, `--check` when
`checkOnly` is set. -/
def argsTempFile1 (pm : AnsiblePlayProviderModel) (data : RunResourceModel1)
    (tfName : String) (checkOnly : Bool) : List String :=
  let a₁ := [data.playbookFile.valueString, "-i", tfName]
  let a₂ := if 0 < pm.verbosity.valueInt32 then a₁ ++ ["-" ++ goRepeatV pm.verbosity.valueInt32.toNat] else a₁
  if checkOnly then a₂ ++ ["--check"] else a₂

/-- Argument list of the stdin variant: playbook path, `-i /dev/stdin`, the
hardcoded `-vv` flag, and `--check` when `checkOnly` is set. -/
def argsStdin (data : RunResourceModel1) (checkOnly : Bool) : List String :=
  let a₁ := [data.playbookFile.valueString, "-i", "/dev/stdin", "-vv"]
  if checkOnly then a₁ ++ ["--check"] else a₁

/-- `(*RunResource).execute` of the random-id variant: build the hosts map,
create/write/close the temp inventory file, then run the external process.
Each failure aborts with the wrapped error message of the source. -/
def execute0 (pm : AnsiblePlayProviderModel) (data : RunResourceModel0)
    (env : ExecEnv) : ExecTrace :=
  match buildHostsMap data.hosts with
  | .error e => ⟨none, none, .error e⟩
  | .ok hosts =>
    match env.createTemp with
    | .error e => ⟨none, none, .error ("failed to create temporary inventory file: " ++ e)⟩
    | .ok tfName =>
      match env.writeInv with
      | .error e => ⟨none, none, .error ("failed to write temporary inventory file: " ++ e)⟩
      | .ok _ =>
        match env.closeInv with
        | .error e => ⟨some (inventoryDoc hosts), none, .error ("failed to close temporary inventory file: " ++ e)⟩
        | .ok _ =>
          let inv : Invocation :=
            ⟨resolveBinary pm.ansiblePlaybookBinary.valueString, argsTempFile0 pm data tfName, none⟩
          match env.run inv with
          | .error e => ⟨some (inventoryDoc hosts), some inv, .error ("ansible play failed: " ++ e)⟩
          | .ok _ => ⟨some (inventoryDoc hosts), some inv, .ok ()⟩

/-- `(*RunResource).execute` of the `last_execution` temp-file variant. -/
def execute1 (pm : AnsiblePlayProviderModel) (data : RunResourceModel1)
    (checkOnly : Bool) (env : ExecEnv) : ExecTrace :=
  match buildHostsMap data.hosts with
  | .error e => ⟨none, none, .error e⟩
  | .ok hosts =>
    match env.createTemp with
    | .error e => ⟨none, none, .error ("failed to create temporary inventory file: " ++ e)⟩
    | .ok tfName =>
      match env.writeInv with
      | .error e => ⟨none, none, .error ("failed to write temporary inventory file: " ++ e)⟩
      | .ok _ =>
        match env.closeInv with
        | .error e => ⟨some (inventoryDoc hosts), none, .error ("failed to close temporary inventory file: " ++ e)⟩
        | .ok _ =>
          let inv : Invocation :=
            ⟨resolveBinary pm.ansiblePlaybookBinary.valueString, argsTempFile1 pm data tfName checkOnly, none⟩
          match env.run inv with
          | .error e => ⟨some (inventoryDoc hosts), some inv, .error ("ansible play failed: " ++ e)⟩
          | .ok _ => ⟨some (inventoryDoc hosts), some inv, .ok ()⟩

/-- `(*RunResource).execute` of the stdin variant: the inventory is
marshalled (the `yaml.Marshal` error is discarded in the source) and
streamed on standard input; no temp file is involved.  The receiver's
in-place binary defaulting is modelled by `resolveBinary`. -/
def executeStdin (binary : String) (data : RunResourceModel1) (checkOnly : Bool)
    (run : Invocation → Except String String) : ExecTrace :=
  match buildHostsMapStdin data.hosts with
  | .error e => ⟨none, none, .error e⟩
  | .ok hosts =>
    let inv : Invocation :=
      ⟨resolveBinary binary, argsStdin data checkOnly, some (inventoryDoc hosts)⟩
    match run inv with
    | .error e => ⟨some (inventoryDoc hosts), some inv, .error ("ansible play failed: " ++ e)⟩
    | .ok _ => ⟨some (inventoryDoc hosts), some inv, .ok ()⟩

/-- A framework diagnostic: attribute path (for `AddAttributeError`),
summary, and detail. -/
structure Diag where
  attrPath : Option String
  summary : String
  detail : String

/-- `Create` of the random-id variant: run `execute`; on any error return
the diagnostic and persist nothing (Terraform then considers the resource
not created); on success persist the planned data with a fresh random id.
Plan decoding (`req.Plan.Get`) is assumed successful; the random id is an
oracle parameter. -/
def create0 (pm : AnsiblePlayProviderModel) (data : RunResourceModel0)
    (env : ExecEnv) (randId : Int) : Except Diag RunResourceModel0 :=
  match (execute0 pm data env).result with
  | .error e => .error ⟨none, "Error", e⟩
  | .ok _ => .ok { data with id := TFInt64.value randId }

/-- `Update` of the random-id variant: like `Create`, but the id comes from
the plan (the `UseStateForUnknown` plan modifier carries the prior id), so
the planned data is persisted as is on success. -/
def update0 (pm : AnsiblePlayProviderModel) (data : RunResourceModel0)
    (env : ExecEnv) : Except Diag RunResourceModel0 :=
  match (execute0 pm data env).result with
  | .error e => .error ⟨none, "Error", e⟩
  | .ok _ => .ok data

/-- `Read` of the random-id variant: re-validate a set (non-null, known)
`extra_vars_json` with `json.Unmarshal` into a map, failing with an
attribute-scoped diagnostic (the prior state is then left as is by the
framework); otherwise persist the state read from prior state unchanged. -/
def read0 (data : RunResourceModel0) : Except Diag RunResourceModel0 :=
  if !data.extraVars.isNull && !data.extraVars.isUnknown then
    match jsonUnmarshalObj data.extraVars.valueString with
    | none => .error ⟨some "extra_vars", "extra_vars is not valid", "expected a valid json object"⟩
    | some _ => .ok data
  else .ok data

/-- `Create` of the `last_execution` temp-file variant: run `execute` with
`checkOnly = false`; on error persist nothing; on success persist the
planned data stamped with the current RFC3339 time (the clock is an oracle
parameter).  The source assigns the stamp before the error check, but the
local value is discarded on error. -/
def create1 (pm : AnsiblePlayProviderModel) (data : RunResourceModel1)
    (env : ExecEnv) (now : String) : Except Diag RunResourceModel1 :=
  match (execute1 pm data false env).result with
  | .error e => .error ⟨none, "Error", e⟩
  | .ok _ => .ok { data with lastExecution := TFString.value now }

/-- `Update` of the `last_execution` temp-file variant: identical control
flow to `Create`, stamping a fresh `last_execution` on success. -/
def update1 (pm : AnsiblePlayProviderModel) (data : RunResourceModel1)
    (env : ExecEnv) (now : String) : Except Diag RunResourceModel1 :=
  match (execute1 pm data false env).result with
  | .error e => .error ⟨none, "Error", e⟩
  | .ok _ => .ok { data with lastExecution := TFString.value now }

/-- `Read` of the `last_execution` temp-file variant: re-invoke the
playbook with `checkOnly = false` on the state read back; on error the
prior state is left untouched; on success the state is persisted unchanged
(`last_execution` is never reassigned).  The returned trace exposes the
invocation the read issued. -/
def read1TempFile (pm : AnsiblePlayProviderModel) (prior : RunResourceModel1)
    (env : ExecEnv) : ExecTrace × Except Diag RunResourceModel1 :=
  let t := execute1 pm prior false env
  (t, match t.result with
      | .error e => .error ⟨none, "Error", e⟩
      | .ok _ => .ok prior)

/-- `Read` of the stdin variant: same shape as the temp-file read, with the
stdin `execute` and `checkOnly = false`. -/
def read1Stdin (binary : String) (prior : RunResourceModel1)
    (run : Invocation → Except String String) : ExecTrace × Except Diag RunResourceModel1 :=
  let t := executeStdin binary prior false run
  (t, match t.result with
      | .error e => .error ⟨none, "Error", e⟩
      | .ok _ => .ok prior)

/-- Provider data handed to `Configure`: absent (provider not configured),
the provider model, or a value of some other type (failing the Go type
assertion). -/
inductive ProviderData where
  | absent
  | model (m : AnsiblePlayProviderModel)
  | other

/-- `Configure` of the stdin variant, acting on the receiver's
`ansiblePlaybookBinary` field (initially the zero value `""` from
`NewRunResource`).  The source assigns the field only when the type
assertion FAILS (`if m, ok := ...; !ok`), and then `m` is the zero provider
model, so the assigned value is the empty string. -/
def configureStdin (binary : String) (pd : ProviderData) : String :=
  match pd with
  | .absent => binary
  | .model _ => binary
  | .other => zeroProviderModel.ansiblePlaybookBinary.valueString


theorem goLookup_goUpsert {α : Type} (m : GoMap α) (k : String) (v : α) (a : String) :
    goLookup (goUpsert m k v) a = if k = a then some v else goLookup m a := by
  induction m with
  | nil => simp [goUpsert, goLookup]
  | cons p rest ih =>
    obtain ⟨k₀, v₀⟩ := p
    simp only [goUpsert]
    by_cases hk : k₀ = k
    · rw [if_pos hk]
      by_cases ha : k = a
      · simp [goLookup, ha]
      · have hka : ¬ k₀ = a := fun h => ha (hk ▸ h)
        simp [goLookup, ha, hka]
    · rw [if_neg hk]
      by_cases ha : k₀ = a
      · have hka : ¬ k = a := fun h => hk (ha.trans h.symm)
        simp [goLookup, ha, hka]
      · simp [goLookup, ha, ih]

theorem goLookup_foldl_upsert (ps : List (String × Json)) (acc : GoMap Json) (a : String) :
    goLookup (ps.foldl (fun m p => goUpsert m p.1 p.2) acc) a =
      match lastAttr ps a with
      | some v => some v
      | none => goLookup acc a := by
  induction ps generalizing acc with
  | nil => simp [lastAttr]
  | cons p t ih =>
    simp only [List.foldl_cons, lastAttr]
    rw [ih]
    cases lastAttr t a with
    | some v => rfl
    | none =>
      simp only [goLookup_goUpsert]
      by_cases hp : p.1 = a <;> simp [hp]


theorem buildHostsMapAux_ok (hs : List TFString) :
    ∀ acc m, buildHostsMapAux acc hs = .ok m →
      ∃ ps, parsedPairs hs = .ok ps
        ∧ m = ps.foldl (fun mm p => goUpsert mm p.1 p.2) acc := by
  induction hs with
  | nil =>
    intro acc m h
    refine ⟨[], rfl, ?_⟩
    simp [buildHostsMapAux] at h
    simp [h]
  | cons x t ih =>
    intro acc m h
    simp only [buildHostsMapAux] at h
    cases hp : parseHostSpec x.valueString with
    | error e => rw [hp] at h; cases h
    | ok p =>
      rw [hp] at h
      obtain ⟨ps, hps, hm⟩ := ih _ _ h
      exact ⟨(p.1, Json.obj p.2) :: ps, by simp [parsedPairs, hp, hps], by simp [hm]⟩

theorem buildHostsMapAux_append_error (bad : TFString) (post : List TFString)
    (addr rest : String)
    (hsplit : splitN2 bad.valueString = (addr, some rest))
    (hbad : jsonUnmarshalObj rest = none) :
    ∀ (pre : List TFString), (∀ x ∈ pre, ∃ r, parseHostSpec x.valueString = .ok r) →
      ∀ acc, buildHostsMapAux acc (pre ++ bad :: post) = .error (hostAttrErr addr) := by
  intro pre
  induction pre with
  | nil =>
    intro _ acc
    have hparse : parseHostSpec bad.valueString = .error (hostAttrErr addr) := by
      simp [parseHostSpec, hsplit, hbad]
    simp [buildHostsMapAux, hparse]
  | cons x t ih =>
    intro hpre acc
    obtain ⟨r, hr⟩ := hpre x (List.mem_cons_self x t)
    have ht : ∀ y ∈ t, ∃ r, parseHostSpec y.valueString = .ok r :=
      fun y hy => hpre y (List.mem_cons_of_mem x hy)
    simp [buildHostsMapAux, hr, ih ht]

theorem execute0_invocation (pm : AnsiblePlayProviderModel) (data : RunResourceModel0)
    (env : ExecEnv) (inv : Invocation)
    (h : (execute0 pm data env).invocation = some inv) :
    ∃ hosts tfName, buildHostsMap data.hosts = .ok hosts ∧ env.createTemp = .ok tfName
      ∧ inv = ⟨resolveBinary pm.ansiblePlaybookBinary.valueString, argsTempFile0 pm data tfName, none⟩ := by
  cases hb : buildHostsMap data.hosts with
  | error e => simp [execute0, hb] at h
  | ok hosts =>
    cases hct : env.createTemp with
    | error e => simp [execute0, hb, hct] at h
    | ok tfName =>
      cases hw : env.writeInv with
      | error e => simp [execute0, hb, hct, hw] at h
      | ok u =>
        cases hcl : env.closeInv with
        | error e => simp [execute0, hb, hct, hw, hcl] at h
        | ok u₂ =>
          refine ⟨hosts, tfName, rfl, rfl, ?_⟩
          cases hr : env.run ⟨resolveBinary pm.ansiblePlaybookBinary.valueString, argsTempFile0 pm data tfName, none⟩ with
          | error e =>
            simp [execute0, hb, hct, hw, hcl, hr] at h
            exact h.symm
          | ok s =>
            simp [execute0, hb, hct, hw, hcl, hr] at h
            exact h.symm

theorem execute1_invocation (pm : AnsiblePlayProviderModel) (data : RunResourceModel1)
    (checkOnly : Bool) (env : ExecEnv) (inv : Invocation)
    (h : (execute1 pm data checkOnly env).invocation = some inv) :
    ∃ hosts tfName, buildHostsMap data.hosts = .ok hosts ∧ env.createTemp = .ok tfName
      ∧ inv = ⟨resolveBinary pm.ansiblePlaybookBinary.valueString, argsTempFile1 pm data tfName checkOnly, none⟩ := by
  cases hb : buildHostsMap data.hosts with
  | error e => simp [execute1, hb] at h
  | ok hosts =>
    cases hct : env.createTemp with
    | error e => simp [execute1, hb, hct] at h
    | ok tfName =>
      cases hw : env.writeInv with
      | error e => simp [execute1, hb, hct, hw] at h
      | ok u =>
        cases hcl : env.closeInv with
        | error e => simp [execute1, hb, hct, hw, hcl] at h
        | ok u₂ =>
          refine ⟨hosts, tfName, rfl, rfl, ?_⟩
          cases hr : env.run ⟨resolveBinary pm.ansiblePlaybookBinary.valueString, argsTempFile1 pm data tfName checkOnly, none⟩ with
          | error e =>
            simp [execute1, hb, hct, hw, hcl, hr] at h
            exact h.symm
          | ok s =>
            simp [execute1, hb, hct, hw, hcl, hr] at h
            exact h.symm

theorem executeStdin_invocation (b : String) (data : RunResourceModel1)
    (checkOnly : Bool) (run : Invocation → Except String String) (inv : Invocation)
    (h : (executeStdin b data checkOnly run).invocation = some inv) :
    ∃ hosts, buildHostsMapStdin data.hosts = .ok hosts
      ∧ inv = ⟨resolveBinary b, argsStdin data checkOnly, some (inventoryDoc hosts)⟩ := by
  cases hb : buildHostsMapStdin data.hosts with
  | error e => simp [executeStdin, hb] at h
  | ok hosts =>
    refine ⟨hosts, rfl, ?_⟩
    cases hr : run ⟨resolveBinary b, argsStdin data checkOnly, some (inventoryDoc hosts)⟩ with
    | error e =>
      simp [executeStdin, hb, hr] at h
      exact h.symm
    | ok s =>
      simp [executeStdin, hb, hr] at h
      exact h.symm

theorem argsTempFile0_eq (pm : AnsiblePlayProviderModel) (data : RunResourceModel0)
    (tfName : String) :
    argsTempFile0 pm data tfName = [data.playbookFile.valueString, "-i", tfName]
      ++ (if data.extraVars.isNull then [] else ["--extra-vars", data.extraVars.valueString])
      ++ (if 0 < pm.verbosity.valueInt32 then ["-" ++ goRepeatV pm.verbosity.valueInt32.toNat] else []) := by
  unfold argsTempFile0
  by_cases h₁ : data.extraVars.isNull <;> by_cases h₂ : 0 < pm.verbosity.valueInt32 <;> simp [h₁, h₂]

theorem argsTempFile1_eq (pm : AnsiblePlayProviderModel) (data : RunResourceModel1)
    (tfName : String) (checkOnly : Bool) :
    argsTempFile1 pm data tfName checkOnly = [data.playbookFile.valueString, "-i", tfName]
      ++ (if 0 < pm.verbosity.valueInt32 then ["-" ++ goRepeatV pm.verbosity.valueInt32.toNat] else [])
      ++ (if checkOnly then ["--check"] else []) := by
  unfold argsTempFile1
  by_cases h₁ : 0 < pm.verbosity.valueInt32 <;> cases checkOnly <;> simp [h₁]

theorem argsStdin_eq (data : RunResourceModel1) (checkOnly : Bool) :
    argsStdin data checkOnly = [data.playbookFile.valueString, "-i", "/dev/stdin", "-vv"]
      ++ (if checkOnly then ["--check"] else []) := by
  unfold argsStdin
  cases checkOnly <;> simp


/-- C1: the computed marker (random id, or `last_execution` timestamp)
changes only through Create or Update; every Read variant that returns
successfully persists exactly the state it read from prior state — the
marker it persists equals the marker it read — even when it re-validates
`extra_vars_json` (random-id variant) or re-invokes the playbook (both
`last_execution` variants). -/
theorem c1_read_preserves_marker (data d₀ : RunResourceModel0)
    (pm : AnsiblePlayProviderModel) (prior d₁ : RunResourceModel1) (env : ExecEnv)
    (binary : String) (prior2 d₂ : RunResourceModel1)
    (run : Invocation → Except String String) :
    (read0 data = .ok d₀ → d₀.id = data.id ∧ d₀ = data)
    ∧ ((read1TempFile pm prior env).2 = .ok d₁ →
        d₁.lastExecution = prior.lastExecution ∧ d₁ = prior)
    ∧ ((read1Stdin binary prior2 run).2 = .ok d₂ →
        d₂.lastExecution = prior2.lastExecution ∧ d₂ = prior2) := by
  refine ⟨?_, ?_, ?_⟩
  · intro h
    unfold read0 at h
    by_cases hc : (!data.extraVars.isNull && !data.extraVars.isUnknown) = true
    · rw [if_pos hc] at h
      cases hj : jsonUnmarshalObj data.extraVars.valueString with
      | none => rw [hj] at h; cases h
      | some m =>
        rw [hj] at h
        have h' := Except.ok.inj h
        exact ⟨h' ▸ rfl, h'.symm⟩
    · rw [if_neg hc] at h
      have h' := Except.ok.inj h
      exact ⟨h' ▸ rfl, h'.symm⟩
  · intro h
    unfold read1TempFile at h
    dsimp only at h
    cases hr : (execute1 pm prior false env).result with
    | error e => rw [hr] at h; cases h
    | ok u =>
      rw [hr] at h
      have h' := Except.ok.inj h
      exact ⟨h' ▸ rfl, h'.symm⟩
  · intro h
    unfold read1Stdin at h
    dsimp only at h
    cases hr : (executeStdin binary prior2 false run).result with
    | error e => rw [hr] at h; cases h
    | ok u =>
      rw [hr] at h
      have h' := Except.ok.inj h
      exact ⟨h' ▸ rfl, h'.symm⟩

/-- Witness for C1 at concrete inputs: a random-id state with null extra
vars, and `last_execution` states read with always-succeeding runners. -/
theorem c1_read_preserves_marker_witness :
    ((⟨TFInt64.value 7, [TFString.value "127.0.0.1"], TFString.value "p.yml", TFString.null⟩ : RunResourceModel0).id
        = (⟨TFInt64.value 7, [TFString.value "127.0.0.1"], TFString.value "p.yml", TFString.null⟩ : RunResourceModel0).id)
    ∧ ((⟨[], TFString.value "p.yml", TFString.value "2024-05-01T00:00:00Z"⟩ : RunResourceModel1).lastExecution
        = (⟨[], TFString.value "p.yml", TFString.value "2024-05-01T00:00:00Z"⟩ : RunResourceModel1).lastExecution) :=
  ⟨((c1_read_preserves_marker
      ⟨TFInt64.value 7, [TFString.value "127.0.0.1"], TFString.value "p.yml", TFString.null⟩
      ⟨TFInt64.value 7, [TFString.value "127.0.0.1"], TFString.value "p.yml", TFString.null⟩
      zeroProviderModel
      ⟨[], TFString.value "p.yml", TFString.value "2024-05-01T00:00:00Z"⟩
      ⟨[], TFString.value "p.yml", TFString.value "2024-05-01T00:00:00Z"⟩
      ⟨Except.ok "/tmp/inventory-1.yml", Except.ok (), Except.ok (), fun _ => Except.ok ""⟩
      "" ⟨[], TFString.value "p.yml", TFString.value "2024-05-01T00:00:00Z"⟩
      ⟨[], TFString.value "p.yml", TFString.value "2024-05-01T00:00:00Z"⟩
      (fun _ => Except.ok "")).1 rfl).1,
   ((c1_read_preserves_marker
      ⟨TFInt64.value 7, [TFString.value "127.0.0.1"], TFString.value "p.yml", TFString.null⟩
      ⟨TFInt64.value 7, [TFString.value "127.0.0.1"], TFString.value "p.yml", TFString.null⟩
      zeroProviderModel
      ⟨[], TFString.value "p.yml", TFString.value "2024-05-01T00:00:00Z"⟩
      ⟨[], TFString.value "p.yml", TFString.value "2024-05-01T00:00:00Z"⟩
      ⟨Except.ok "/tmp/inventory-1.yml", Except.ok (), Except.ok (), fun _ => Except.ok ""⟩
      "" ⟨[], TFString.value "p.yml", TFString.value "2024-05-01T00:00:00Z"⟩
      ⟨[], TFString.value "p.yml", TFString.value "2024-05-01T00:00:00Z"⟩
      (fun _ => Except.ok "")).2.2 rfl).1⟩


/-- C2: Create and Update persist atomically.  When `execute` fails (host
parsing, inventory temp-file handling, or the external run), the operation
returns the error diagnostic and persists nothing; when it succeeds, the
planned configuration plus the computed marker is persisted. -/
theorem c2_atomic_persist (pm : AnsiblePlayProviderModel) (data₀ : RunResourceModel0)
    (env : ExecEnv) (randId : Int) (e : String) (data₁ : RunResourceModel1) (now : String) :
    ((execute0 pm data₀ env).result = .error e →
      create0 pm data₀ env randId = .error ⟨none, "Error", e⟩
      ∧ update0 pm data₀ env = .error ⟨none, "Error", e⟩)
    ∧ ((execute0 pm data₀ env).result = .ok () →
      create0 pm data₀ env randId = .ok { data₀ with id := TFInt64.value randId }
      ∧ update0 pm data₀ env = .ok data₀)
    ∧ ((execute1 pm data₁ false env).result = .error e →
      create1 pm data₁ env now = .error ⟨none, "Error", e⟩
      ∧ update1 pm data₁ env now = .error ⟨none, "Error", e⟩)
    ∧ ((execute1 pm data₁ false env).result = .ok () →
      create1 pm data₁ env now = .ok { data₁ with lastExecution := TFString.value now }
      ∧ update1 pm data₁ env now = .ok { data₁ with lastExecution := TFString.value now }) := by
  refine ⟨fun h => ⟨?_, ?_⟩, fun h => ⟨?_, ?_⟩, fun h => ⟨?_, ?_⟩, fun h => ⟨?_, ?_⟩⟩ <;>
    simp [create0, update0, create1, update1, h]

/-- Witness for C2: a successful environment persists the planned data with
the fresh marker; a failing runner yields the diagnostic and no state. -/
theorem c2_atomic_persist_witness :
    create0 zeroProviderModel
      ⟨TFInt64.null, [TFString.value "127.0.0.1"], TFString.value "p.yml", TFString.null⟩
      ⟨Except.ok "/tmp/inventory-1.yml", Except.ok (), Except.ok (), fun _ => Except.ok ""⟩ 7
      = .ok ⟨TFInt64.value 7, [TFString.value "127.0.0.1"], TFString.value "p.yml", TFString.null⟩
    ∧ create0 zeroProviderModel
      ⟨TFInt64.null, [TFString.value "127.0.0.1"], TFString.value "p.yml", TFString.null⟩
      ⟨Except.ok "/tmp/inventory-1.yml", Except.ok (), Except.ok (), fun _ => Except.error "boom"⟩ 7
      = .error ⟨none, "Error", "ansible play failed: boom"⟩ :=
  ⟨((c2_atomic_persist zeroProviderModel
      ⟨TFInt64.null, [TFString.value "127.0.0.1"], TFString.value "p.yml", TFString.null⟩
      ⟨Except.ok "/tmp/inventory-1.yml", Except.ok (), Except.ok (), fun _ => Except.ok ""⟩ 7
      "ansible play failed: boom"
      ⟨[], TFString.value "p.yml", TFString.null⟩ "t").2.1 rfl).1,
   ((c2_atomic_persist zeroProviderModel
      ⟨TFInt64.null, [TFString.value "127.0.0.1"], TFString.value "p.yml", TFString.null⟩
      ⟨Except.ok "/tmp/inventory-1.yml", Except.ok (), Except.ok (), fun _ => Except.error "boom"⟩ 7
      "ansible play failed: boom"
      ⟨[], TFString.value "p.yml", TFString.null⟩ "t").1 rfl).1⟩

/-- C5 fails as stated on the host spec `h null`: its post-space remainder
`null` is not a JSON object (it decodes as `Json.null`, first conjunct),
yet `json.Unmarshal` into the pre-initialised attribute map accepts it as
a no-op, so `execute` does not abort — it produces the inventory document
(with empty attributes for `h`), issues the external invocation, and
succeeds — while the claim predicts an abort naming the address with no
inventory and no invocation. -/
theorem c5_null_attr_counterexample :
    parseJValue ("null".length + 1) "null".data = some (Json.null, [])
    ∧ splitN2 "h null" = ("h", some "null")
    ∧ (execute0 zeroProviderModel
        ⟨TFInt64.null, [TFString.value "h null"], TFString.value "p.yml", TFString.null⟩
        ⟨Except.ok "/tmp/inventory-1.yml", Except.ok (), Except.ok (), fun _ => Except.ok ""⟩).inventory
      = some (inventoryDoc [("h", Json.obj [])])
    ∧ (execute0 zeroProviderModel
        ⟨TFInt64.null, [TFString.value "h null"], TFString.value "p.yml", TFString.null⟩
        ⟨Except.ok "/tmp/inventory-1.yml", Except.ok (), Except.ok (), fun _ => Except.ok ""⟩).invocation
      = some ⟨"ansible-playbook", ["p.yml", "-i", "/tmp/inventory-1.yml"], none⟩
    ∧ (execute0 zeroProviderModel
        ⟨TFInt64.null, [TFString.value "h null"], TFString.value "p.yml", TFString.null⟩
        ⟨Except.ok "/tmp/inventory-1.yml", Except.ok (), Except.ok (), fun _ => Except.ok ""⟩).result
      = .ok () :=
  ⟨rfl, rfl, rfl, rfl, rfl⟩

/-- C5 as amended: a host list containing a spec with a space whose
remainder the map-decode rejects — neither a JSON object nor the JSON
literal `null` (which `json.Unmarshal` accepts into the attribute map as a
no-op, leaving the attributes empty) — makes `execute` fail with the error
naming the offending address, producing no inventory document and issuing
no external invocation. -/
theorem c5_bad_host_aborts (pm : AnsiblePlayProviderModel) (data : RunResourceModel0)
    (env : ExecEnv) (pre post : List TFString) (bad : TFString) (addr rest : String) :
    data.hosts = pre ++ bad :: post →
    (∀ x ∈ pre, ∃ r, parseHostSpec x.valueString = .ok r) →
    splitN2 bad.valueString = (addr, some rest) →
    jsonUnmarshalObj rest = none →
    (execute0 pm data env).inventory = none ∧ (execute0 pm data env).invocation = none
      ∧ (execute0 pm data env).result = .error (hostAttrErr addr) := by
  intro hh hpre hsplit hbad
  have hb : buildHostsMap data.hosts = .error (hostAttrErr addr) := by
    rw [hh]
    exact buildHostsMapAux_append_error bad post addr rest hsplit hbad pre hpre []
  simp [execute0, hb]

/-- Witness for C5: the single host spec `127.0.0.1 nope` fails, names the
address, and issues no invocation. -/
theorem c5_bad_host_aborts_witness :
    (execute0 zeroProviderModel
        ⟨TFInt64.null, [TFString.value "127.0.0.1 nope"], TFString.value "p.yml", TFString.null⟩
        ⟨Except.ok "/tmp/inventory-1.yml", Except.ok (), Except.ok (), fun _ => Except.ok ""⟩).inventory = none
    ∧ (execute0 zeroProviderModel
        ⟨TFInt64.null, [TFString.value "127.0.0.1 nope"], TFString.value "p.yml", TFString.null⟩
        ⟨Except.ok "/tmp/inventory-1.yml", Except.ok (), Except.ok (), fun _ => Except.ok ""⟩).invocation = none
    ∧ (execute0 zeroProviderModel
        ⟨TFInt64.null, [TFString.value "127.0.0.1 nope"], TFString.value "p.yml", TFString.null⟩
        ⟨Except.ok "/tmp/inventory-1.yml", Except.ok (), Except.ok (), fun _ => Except.ok ""⟩).result
      = .error (hostAttrErr "127.0.0.1") :=
  c5_bad_host_aborts zeroProviderModel
    ⟨TFInt64.null, [TFString.value "127.0.0.1 nope"], TFString.value "p.yml", TFString.null⟩
    ⟨Except.ok "/tmp/inventory-1.yml", Except.ok (), Except.ok (), fun _ => Except.ok ""⟩
    [] [] (TFString.value "127.0.0.1 nope") "127.0.0.1" "nope"
    rfl (fun x hx => absurd hx (List.not_mem_nil x)) rfl rfl


/-- C6 fails on the stdin variant: its hosts-map assignment keys by
`value.String()` — the framework quoting of the whole host-spec element —
rather than the parsed address, so even for the bare host `127.0.0.1` the
encoded inventory's `hosts` mapping carries the quoted key
`"127.0.0.1"` (with literal double quotes), which differs from the parsed
address.  (The two temp-file variants key by the parsed address.) -/
theorem c6_stdin_inventory_key_not_address :
    (executeStdin ""
        ⟨[TFString.value "127.0.0.1"], TFString.value "p.yml", TFString.null⟩ false
        (fun _ => Except.ok "")).inventory
      = some (Json.obj [("all", Json.obj [("hosts",
          Json.obj [("\"127.0.0.1\"", Json.obj [])])])])
    ∧ ("\"127.0.0.1\"" : String) ≠ "127.0.0.1" :=
  ⟨rfl, by decide⟩

/-- C7 is refuted by the stdin variant: its invocation always carries the
hardcoded `-vv` flag although that variant consults no configured
verbosity (in particular, with verbosity 0 the claim predicts no
verbosity flag). -/
theorem c7_stdin_args_counterexample :
    (executeStdin "" ⟨[], TFString.value "p.yml", TFString.null⟩ false
        (fun _ => Except.ok "")).invocation
      = some ⟨"ansible-playbook", ["p.yml", "-i", "/dev/stdin", "-vv"], some (inventoryDoc [])⟩
    ∧ "-vv" ∈ ["p.yml", "-i", "/dev/stdin", "-vv"] :=
  ⟨rfl, by decide⟩

/-- C7 as amended: in the temp-file variants the argument list is the
playbook path, `-i` with the temp-file name, `--extra-vars` with the raw
JSON exactly when extra vars are set (random-id variant only), and a
single flag of a `-` followed by `v` repeated verbosity times exactly when
the configured verbosity is positive (plus `--check` exactly when
`checkOnly`, in the `last_execution` temp-file variant).  In the stdin
variant the argument list is the playbook path, `-i /dev/stdin` and the
fixed `-vv` flag regardless of configured verbosity (plus `--check`
exactly when `checkOnly`). -/
theorem c7_invocation_args (pm : AnsiblePlayProviderModel) (data₀ : RunResourceModel0)
    (data₁ : RunResourceModel1) (env : ExecEnv) (tfName b : String)
    (checkOnly : Bool) (run : Invocation → Except String String)
    (inv₀ inv₁ inv₂ : Invocation) :
    (env.createTemp = .ok tfName → (execute0 pm data₀ env).invocation = some inv₀ →
      inv₀.args = [data₀.playbookFile.valueString, "-i", tfName]
        ++ (if data₀.extraVars.isNull then [] else ["--extra-vars", data₀.extraVars.valueString])
        ++ (if 0 < pm.verbosity.valueInt32 then ["-" ++ goRepeatV pm.verbosity.valueInt32.toNat] else []))
    ∧ (env.createTemp = .ok tfName → (execute1 pm data₁ checkOnly env).invocation = some inv₁ →
      inv₁.args = [data₁.playbookFile.valueString, "-i", tfName]
        ++ (if 0 < pm.verbosity.valueInt32 then ["-" ++ goRepeatV pm.verbosity.valueInt32.toNat] else [])
        ++ (if checkOnly then ["--check"] else []))
    ∧ ((executeStdin b data₁ checkOnly run).invocation = some inv₂ →
      inv₂.args = [data₁.playbookFile.valueString, "-i", "/dev/stdin", "-vv"]
        ++ (if checkOnly then ["--check"] else [])) := by
  refine ⟨?_, ?_, ?_⟩
  · intro hct h
    obtain ⟨hosts, tfName₂, _, hct₂, hinv⟩ := execute0_invocation pm data₀ env inv₀ h
    rw [hct] at hct₂
    cases Except.ok.inj hct₂
    rw [hinv]
    exact argsTempFile0_eq pm data₀ tfName
  · intro hct h
    obtain ⟨hosts, tfName₂, _, hct₂, hinv⟩ := execute1_invocation pm data₁ checkOnly env inv₁ h
    rw [hct] at hct₂
    cases Except.ok.inj hct₂
    rw [hinv]
    exact argsTempFile1_eq pm data₁ tfName checkOnly
  · intro h
    obtain ⟨hosts, _, hinv⟩ := executeStdin_invocation b data₁ checkOnly run inv₂ h
    rw [hinv]
    exact argsStdin_eq data₁ checkOnly

/-- Witness for the amended C7: a random-id invocation with extra vars set
and verbosity 3 carries `--extra-vars` and a single `-vvv` flag. -/
theorem c7_invocation_args_witness :
    (execute0 ⟨TFString.null, TFInt32.value 3⟩
        ⟨TFInt64.null, [TFString.value "127.0.0.1"], TFString.value "p.yml", TFString.value "\x7b\"a\":\"b\"\x7d"⟩
        ⟨Except.ok "/tmp/inventory-1.yml", Except.ok (), Except.ok (), fun _ => Except.ok ""⟩).invocation
      = some ⟨"ansible-playbook",
          ["p.yml", "-i", "/tmp/inventory-1.yml", "--extra-vars", "\x7b\"a\":\"b\"\x7d", "-vvv"], none⟩
    ∧ Invocation.args ⟨"ansible-playbook",
          ["p.yml", "-i", "/tmp/inventory-1.yml", "--extra-vars", "\x7b\"a\":\"b\"\x7d", "-vvv"], none⟩
      = ["p.yml", "-i", "/tmp/inventory-1.yml"]
        ++ ["--extra-vars", "\x7b\"a\":\"b\"\x7d"] ++ ["-vvv"] :=
  ⟨rfl,
   (c7_invocation_args ⟨TFString.null, TFInt32.value 3⟩
      ⟨TFInt64.null, [TFString.value "127.0.0.1"], TFString.value "p.yml", TFString.value "\x7b\"a\":\"b\"\x7d"⟩
      ⟨[], TFString.value "p.yml", TFString.null⟩
      ⟨Except.ok "/tmp/inventory-1.yml", Except.ok (), Except.ok (), fun _ => Except.ok ""⟩
      "/tmp/inventory-1.yml" "" false (fun _ => Except.ok "")
      ⟨"ansible-playbook",
        ["p.yml", "-i", "/tmp/inventory-1.yml", "--extra-vars", "\x7b\"a\":\"b\"\x7d", "-vvv"], none⟩
      ⟨"", [], none⟩ ⟨"", [], none⟩).1 rfl rfl⟩

/-- C9 fails on the code: both variants that re-invoke the playbook on
Read call `execute` with `checkOnly = false`, so the read-time invocation
carries no `--check` flag (the `checkOnly` parameter that would add it is
never passed `true` anywhere in the repository). -/
theorem c9_read_invokes_without_check :
    (read1Stdin "" ⟨[], TFString.value "p.yml", TFString.value "2024-05-01T00:00:00Z"⟩
        (fun _ => Except.ok "")).1.invocation
      = some ⟨"ansible-playbook", ["p.yml", "-i", "/dev/stdin", "-vv"], some (inventoryDoc [])⟩
    ∧ "--check" ∉ ["p.yml", "-i", "/dev/stdin", "-vv"]
    ∧ (read1TempFile zeroProviderModel
        ⟨[], TFString.value "p.yml", TFString.value "2024-05-01T00:00:00Z"⟩
        ⟨Except.ok "/tmp/inventory-1.yml", Except.ok (), Except.ok (), fun _ => Except.ok ""⟩).1.invocation
      = some ⟨"ansible-playbook", ["p.yml", "-i", "/tmp/inventory-1.yml"], none⟩
    ∧ "--check" ∉ ["p.yml", "-i", "/tmp/inventory-1.yml"] :=
  ⟨rfl, by decide, rfl, by decide⟩

/-- C10: in the stdin variant the configured binary never reaches
`execute`.  Starting from the zero receiver (`NewRunResource`), `Configure`
leaves the binary field `""` for every provider datum — it assigns only
when the type assertion fails, and then assigns the zero model's empty
string — so every invocation falls back to `ansible-playbook`. -/
theorem c10_stdin_binary_fallback (pd : ProviderData) (data : RunResourceModel1)
    (checkOnly : Bool) (run : Invocation → Except String String) (inv : Invocation) :
    configureStdin "" pd = ""
    ∧ ((executeStdin (configureStdin "" pd) data checkOnly run).invocation = some inv →
        inv.binary = "ansible-playbook") := by
  have hc : configureStdin "" pd = "" := by cases pd <;> rfl
  refine ⟨hc, fun h => ?_⟩
  rw [hc] at h
  obtain ⟨hosts, _, hinv⟩ := executeStdin_invocation "" data checkOnly run inv h
  rw [hinv]
  rfl

/-- Witness for C10: even with an explicit `ansible_playbook_binary`
provider setting, the stdin variant invokes `ansible-playbook`. -/
theorem c10_stdin_binary_fallback_witness :
    configureStdin "" (ProviderData.model ⟨TFString.value "/usr/bin/ansible-playbook", TFInt32.null⟩) = ""
    ∧ Invocation.binary ⟨"ansible-playbook", ["p.yml", "-i", "/dev/stdin", "-vv"], some (inventoryDoc [])⟩
      = "ansible-playbook" :=
  ⟨(c10_stdin_binary_fallback
      (ProviderData.model ⟨TFString.value "/usr/bin/ansible-playbook", TFInt32.null⟩)
      ⟨[], TFString.value "p.yml", TFString.null⟩ false (fun _ => Except.ok "")
      ⟨"ansible-playbook", ["p.yml", "-i", "/dev/stdin", "-vv"], some (inventoryDoc [])⟩).1,
   (c10_stdin_binary_fallback
      (ProviderData.model ⟨TFString.value "/usr/bin/ansible-playbook", TFInt32.null⟩)
      ⟨[], TFString.value "p.yml", TFString.null⟩ false (fun _ => Except.ok "")
      ⟨"ansible-playbook", ["p.yml", "-i", "/dev/stdin", "-vv"], some (inventoryDoc [])⟩).2 rfl⟩

/-- C8: the encoded inventory's hosts map of the random-id variant binds
each address to the attributes of its last occurrence in input order:
looking up any address in the built map yields exactly the value at the
last parsed pair with that address. -/
theorem c8_last_occurrence_wins (hs : List TFString) (m : GoMap Json)
    (ps : List (String × Json)) (a : String) :
    buildHostsMap hs = .ok m → parsedPairs hs = .ok ps →
    goLookup m a = lastAttr ps a := by
  intro hm hps
  obtain ⟨ps₂, hps₂, hfold⟩ := buildHostsMapAux_ok hs [] m hm
  rw [hps] at hps₂
  have hp := Except.ok.inj hps₂
  subst hp
  rw [hfold, goLookup_foldl_upsert]
  cases lastAttr ps a <;> simp [goLookup]

/-- Witness for C8: the address `h` occurs twice with different attribute
objects; the built map binds it to the attributes of the second
occurrence only. -/
theorem c8_last_occurrence_wins_witness :
    buildHostsMap [TFString.value "h \x7b\"x\":1\x7d", TFString.value "h \x7b\"x\":2\x7d"]
      = .ok [("h", Json.obj [("x", Json.num "2")])]
    ∧ goLookup [("h", Json.obj [("x", Json.num "2")])] "h" = some (Json.obj [("x", Json.num "2")]) :=
  ⟨rfl,
   (c8_last_occurrence_wins
      [TFString.value "h \x7b\"x\":1\x7d", TFString.value "h \x7b\"x\":2\x7d"]
      [("h", Json.obj [("x", Json.num "2")])]
      [("h", Json.obj [("x", Json.num "1")]), ("h", Json.obj [("x", Json.num "2")])]
      "h" rfl rfl).trans rfl⟩


end AnsiblePlay
